import Mathlib

/-!
Shallow embedding of the quiz backend (`src/app.py`) and proofs about it.

The logical core of the backend is:
  * `parse_question_row` — turns one spreadsheet row into a question or rejects it;
  * the sampling / option-shuffling step of the `/api/get-questions` endpoint
    (`random.sample` calls, modelled by an explicit list of chosen indices);
  * the `cantidad` input guard of `/api/get-questions`;
  * the answer-validation loop of `/api/validate-answers`.

Python strings are modelled by Lean `String`; `str.strip` / `str.upper` are
modelled character-wise over the ASCII range that the quiz data uses.
`random.sample(pool, k)` is modelled as a function of the list of pairwise
distinct indices the random generator chose, so theorems quantify over every
possible draw.
-/

/-- The characters `str.strip` removes (Python strips Unicode whitespace; the
ASCII whitespace characters are the ones relevant here). -/
def isPyWs (c : Char) : Bool :=
  c = ' ' || c = '\t' || c = '\n' || c = '\x0d' || c = '\x0b' || c = '\x0c'

/-- Model of Python `str.strip()`: drop leading and trailing whitespace. -/
def pyStrip (s : String) : String :=
  String.mk (((s.toList.dropWhile isPyWs).reverse.dropWhile isPyWs).reverse)

/-- Model of Python `str.upper()` on ASCII data: upper-case each character. -/
def pyUpper (s : String) : String :=
  String.mk (s.toList.map Char.toUpper)

/-- One answer option, as built by `parse_question_row`:
`{"codigo": ..., "texto": ...}` (app.py lines 55-60). -/
structure Opcion where
  codigo : String
  texto : String
deriving DecidableEq, Repr

/-- A parsed question, the dict returned by `parse_question_row`
(app.py lines 71-76). -/
structure Question where
  id : String
  pregunta : String
  opciones : List Opcion
  respuesta_correcta : String
deriving DecidableEq, Repr

/-- `row[i]` for a row with possibly missing trailing fields: the code only
indexes behind an explicit `len(row) > i` guard, so out-of-range access is
modelled as the empty string (it is never reached under the guards). -/
def rowGet (row : List String) (i : Nat) : String :=
  row.getD i ""

/-- `parse_question_row(row, row_index)` (app.py lines 41-76), line by line:
reject rows with fewer than 7 fields; synthesize an id from the row index when
field 0 is falsy; reject an empty question text (field 1); build options
A-D from fields 2-5, dropping empty texts; reject when fewer than 2 options
survive; normalize field 6 with `.strip().upper()`. -/
def parse_question_row (row : List String) (row_index : Nat) : Option Question :=
  if row.length < 7 then none
  else
    let question_id :=
      if rowGet row 0 ≠ "" then rowGet row 0 else "pregunta_" ++ toString row_index
    let question_text := if 1 < row.length then rowGet row 1 else ""
    if question_text = "" then none
    else
      let opciones_originales : List Opcion :=
        [⟨"A", if 2 < row.length then rowGet row 2 else ""⟩,
         ⟨"B", if 3 < row.length then rowGet row 3 else ""⟩,
         ⟨"C", if 4 < row.length then rowGet row 4 else ""⟩,
         ⟨"D", if 5 < row.length then rowGet row 5 else ""⟩]
      let opciones := opciones_originales.filter (fun op => op.texto ≠ "")
      if opciones.length < 2 then none
      else
        let respuesta_correcta := if 6 < row.length then rowGet row 6 else ""
        some ⟨question_id, question_text, opciones, pyUpper (pyStrip respuesta_correcta)⟩

/-- The number of non-empty option fields among fields 2-5 of a row. -/
def nonEmptyOptFields (row : List String) : Nat :=
  (([rowGet row 2, rowGet row 3, rowGet row 4, rowGet row 5]).filter
    (fun s => s ≠ "")).length

/-- The question-loading loop shared by both endpoints (app.py lines 163-167 and
228-232): skip the header row, parse each remaining row with its 1-based sheet
position (starting at 2), keep the successes in order. -/
def load_questions (rows : List (List String)) : List Question :=
  ((rows.drop 1).enumFrom 2).filterMap (fun p => parse_question_row p.2 p.1)

example :
    parse_question_row ["1", "2+2?", "3", "4", "5", "6", " b "] 2 =
      some ⟨"1", "2+2?", [⟨"A", "3"⟩, ⟨"B", "4"⟩, ⟨"C", "5"⟩, ⟨"D", "6"⟩], "B"⟩ := by
  decide

example : parse_question_row ["1", "", "3", "4", "5", "6", "B"] 2 = none := by decide

example : parse_question_row ["1", "Q", "3", "", "", "", "B"] 2 = none := by decide

example : parse_question_row ["1", "Q", "3", "4", "5", "6"] 2 = none := by decide

/-- The filtered option list of a ≥7-field row has exactly as many entries as
the row has non-empty option fields. -/
lemma opciones_filter_length (row : List String) :
    (([(⟨"A", rowGet row 2⟩ : Opcion), ⟨"B", rowGet row 3⟩,
       ⟨"C", rowGet row 4⟩, ⟨"D", rowGet row 5⟩]).filter
      (fun op => op.texto ≠ "")).length = nonEmptyOptFields row := by
  by_cases h2 : rowGet row 2 = "" <;> by_cases h3 : rowGet row 3 = "" <;>
    by_cases h4 : rowGet row 4 = "" <;> by_cases h5 : rowGet row 5 = "" <;>
    simp [nonEmptyOptFields, h2, h3, h4, h5]

/-- `opciones_filter_length` restated in the Boolean normal form that `simp`
produces for the filter predicate. -/
lemma opciones_filter_length_bool (row : List String) :
    (([(⟨"A", rowGet row 2⟩ : Opcion), ⟨"B", rowGet row 3⟩,
       ⟨"C", rowGet row 4⟩, ⟨"D", rowGet row 5⟩]).filter
      (fun op => !decide (op.texto = ""))).length = nonEmptyOptFields row := by
  have h := opciones_filter_length row
  simpa [ne_eq] using h

/-- Characterization of `parse_question_row` on accepted rows: with at least 7
fields, a non-empty question text and at least two non-empty option fields it
returns exactly the dict built on app.py lines 71-76. -/
lemma parse_question_row_eq_of_valid (row : List String) (idx : Nat)
    (h7 : 7 ≤ row.length) (hq : rowGet row 1 ≠ "")
    (hopt : 2 ≤ nonEmptyOptFields row) :
    parse_question_row row idx =
      some ⟨if rowGet row 0 ≠ "" then rowGet row 0 else "pregunta_" ++ toString idx,
            rowGet row 1,
            ([(⟨"A", rowGet row 2⟩ : Opcion), ⟨"B", rowGet row 3⟩,
              ⟨"C", rowGet row 4⟩, ⟨"D", rowGet row 5⟩]).filter
              (fun op => op.texto ≠ ""),
            pyUpper (pyStrip (rowGet row 6))⟩ := by
  have h1 : 1 < row.length := by omega
  have h2 : 2 < row.length := by omega
  have h3 : 3 < row.length := by omega
  have h4 : 4 < row.length := by omega
  have h5 : 5 < row.length := by omega
  have h6 : 6 < row.length := by omega
  have hlen : ¬ row.length < 7 := by omega
  have hfl : ¬ (([(⟨"A", rowGet row 2⟩ : Opcion), ⟨"B", rowGet row 3⟩,
       ⟨"C", rowGet row 4⟩, ⟨"D", rowGet row 5⟩]).filter
      (fun op => !decide (op.texto = ""))).length < 2 := by
    rw [opciones_filter_length_bool]; omega
  simp [parse_question_row, hlen, h1, h2, h3, h4, h5, h6, hq, hfl]

/-- C1: every row with at least 7 fields, a non-empty question-text field
(field 1) and at least 2 non-empty option fields among fields 2-5 parses to a
`Question` whose option count equals the number of non-empty option fields and
whose `respuesta_correcta` is field 6 stripped of surrounding whitespace and
upper-cased. -/
theorem parse_valid_row_options_and_answer (row : List String) (idx : Nat)
    (h7 : 7 ≤ row.length) (hq : rowGet row 1 ≠ "")
    (hopt : 2 ≤ nonEmptyOptFields row) :
    ∃ q, parse_question_row row idx = some q ∧
      q.opciones.length = nonEmptyOptFields row ∧
      q.respuesta_correcta = pyUpper (pyStrip (rowGet row 6)) := by
  refine ⟨_, parse_question_row_eq_of_valid row idx h7 hq hopt, ?_, rfl⟩
  exact opciones_filter_length row

theorem parse_valid_row_options_and_answer_witness :
    7 ≤ (["1", "2+2?", "3", "4", "", "6", " b "] : List String).length ∧
    rowGet ["1", "2+2?", "3", "4", "", "6", " b "] 1 ≠ "" ∧
    2 ≤ nonEmptyOptFields ["1", "2+2?", "3", "4", "", "6", " b "] ∧
    ∃ q, parse_question_row ["1", "2+2?", "3", "4", "", "6", " b "] 2 = some q ∧
      q.opciones.length = nonEmptyOptFields ["1", "2+2?", "3", "4", "", "6", " b "] ∧
      q.respuesta_correcta = pyUpper (pyStrip (rowGet ["1", "2+2?", "3", "4", "", "6", " b "] 6)) :=
  ⟨by decide, by decide, by decide,
   parse_valid_row_options_and_answer ["1", "2+2?", "3", "4", "", "6", " b "] 2
     (by decide) (by decide) (by decide)⟩

/-- C2: `parse_question_row` returns `none` exactly when the row has fewer
than 7 fields, or an empty question-text field, or fewer than 2 non-empty
option fields among fields 2-5 — and for no other reason. -/
theorem parse_rejects_iff (row : List String) (idx : Nat) :
    parse_question_row row idx = none ↔
      row.length < 7 ∨ rowGet row 1 = "" ∨ nonEmptyOptFields row < 2 := by
  by_cases hlen : row.length < 7
  · simp [parse_question_row, hlen]
  · have h1 : 1 < row.length := by omega
    have h2 : 2 < row.length := by omega
    have h3 : 3 < row.length := by omega
    have h4 : 4 < row.length := by omega
    have h5 : 5 < row.length := by omega
    have h6 : 6 < row.length := by omega
    by_cases hq : rowGet row 1 = ""
    · simp [parse_question_row, hlen, h1, hq]
    · by_cases hopt : nonEmptyOptFields row < 2
      · have hfl : (([(⟨"A", rowGet row 2⟩ : Opcion), ⟨"B", rowGet row 3⟩,
            ⟨"C", rowGet row 4⟩, ⟨"D", rowGet row 5⟩]).filter
            (fun op => !decide (op.texto = ""))).length < 2 := by
          rw [opciones_filter_length_bool]; omega
        simp [parse_question_row, hlen, h1, h2, h3, h4, h5, h6, hq, hfl, hopt]
      · rw [parse_question_row_eq_of_valid row idx (by omega) hq (by omega)]
        simp [hlen, hq, hopt]

/-- Model of `random.sample(pool, k)` (app.py lines 180 and 185): the random
generator picks `k` pairwise distinct positions of `pool`; the result is the
elements at the chosen positions, in the chosen order. `idxs` is the list of
positions drawn. -/
def randomSample (pool : List α) (idxs : List Nat) : List α :=
  idxs.filterMap (fun i => pool[i]?)

/-- The draws `random.sample(pool, k)` can make: `k` pairwise distinct
in-range positions. -/
def ValidSample (pool : List α) (k : Nat) (idxs : List Nat) : Prop :=
  idxs.Nodup ∧ idxs.length = k ∧ ∀ i ∈ idxs, i < pool.length

lemma randomSample_length (pool : List α) (idxs : List Nat)
    (h : ∀ i ∈ idxs, i < pool.length) :
    (randomSample pool idxs).length = idxs.length := by
  induction idxs with
  | nil => rfl
  | cons a t ih =>
    have ha : a < pool.length := h a (List.mem_cons_self a t)
    have ht := ih (fun i hi => h i (List.mem_cons_of_mem a hi))
    simp only [randomSample, List.filterMap_cons, List.getElem?_eq_getElem ha] at *
    simp [ht]

lemma randomSample_mem (pool : List α) (idxs : List Nat) (q : α)
    (hq : q ∈ randomSample pool idxs) : q ∈ pool := by
  simp only [randomSample, List.mem_filterMap] at hq
  obtain ⟨i, _, hi⟩ := hq
  exact List.getElem?_mem hi

lemma randomSample_nodup (pool : List α) (idxs : List Nat)
    (hpool : pool.Nodup) (hidx : idxs.Nodup) :
    (randomSample pool idxs).Nodup := by
  refine List.Nodup.filterMap (fun a a' b hb hb' => ?_) hidx
  have hb1 : pool[a]? = some b := hb
  have hb2 : pool[a']? = some b := hb'
  have ha : a < pool.length := by
    by_contra hc
    rw [List.getElem?_eq_none (by omega)] at hb1
    exact Option.noConfusion hb1
  exact List.getElem?_inj ha hpool (hb1.trans hb2.symm)

lemma filterMap_getElem_range (l : List α) :
    (List.range l.length).filterMap (fun i => l[i]?) = l := by
  induction l with
  | nil => rfl
  | cons a t ih =>
    rw [List.length_cons, List.range_succ_eq_map, List.filterMap_cons]
    have h0 : (a :: t)[0]? = some a := by simp
    rw [h0, List.filterMap_map]
    have hc : ((fun i => (a :: t)[i]?) ∘ Nat.succ) = fun i => t[i]? := by
      funext i
      simp
    rw [hc, ih]

lemma validSample_perm_range (l : List α) (idxs : List Nat)
    (h : ValidSample l l.length idxs) : idxs.Perm (List.range l.length) := by
  obtain ⟨hnd, hlen, hmem⟩ := h
  have hsub : idxs ⊆ List.range l.length := fun i hi => List.mem_range.mpr (hmem i hi)
  exact (List.subperm_of_subset hnd hsub).perm_of_length_le (by simp [hlen])

/-- A full-length valid draw is exactly a permutation of the list: the model of
`random.sample(xs, len(xs))` used on app.py line 185. -/
lemma randomSample_perm (l : List α) (idxs : List Nat)
    (h : ValidSample l l.length idxs) : (randomSample l idxs).Perm l := by
  have hp := (validSample_perm_range l idxs h).filterMap (fun i => l[i]?)
  rw [filterMap_getElem_range] at hp
  exact hp

/-- A sheet row that parses, used to build concrete pools. -/
def rowDup : List String := ["1", "2+2?", "3", "4", "", "", "B"]

/-- The pool `get_questions` builds from a sheet whose two data rows are
identical copies of `rowDup`: two equal questions. -/
def poolDup : List Question :=
  load_questions [["ID", "Pregunta", "OpA", "OpB", "OpC", "OpD", "Correcta"],
                  rowDup, rowDup]

example : poolDup = [⟨"1", "2+2?", [⟨"A", "3"⟩, ⟨"B", "4"⟩], "B"⟩,
                     ⟨"1", "2+2?", [⟨"A", "3"⟩, ⟨"B", "4"⟩], "B"⟩] := by decide

/-- C3 counterexample: on the pool loaded from two identical sheet rows,
`random.sample(pool, min(2, 2))` can draw positions 0 and 1 and return the
same question twice — the returned questions are not pairwise distinct, so the
claim fails as stated on pools containing duplicate questions. -/
theorem sample_distinct_counterexample :
    poolDup ≠ [] ∧ 0 < 2 ∧
    ValidSample poolDup (min 2 poolDup.length) [0, 1] ∧
    ¬ (randomSample poolDup [0, 1]).Pairwise (fun a b => a ≠ b) := by
  refine ⟨by decide, by decide, ⟨by decide, by decide, by decide⟩, fun h => ?_⟩
  have heq : randomSample poolDup [0, 1] =
      [⟨"1", "2+2?", [⟨"A", "3"⟩, ⟨"B", "4"⟩], "B"⟩,
       ⟨"1", "2+2?", [⟨"A", "3"⟩, ⟨"B", "4"⟩], "B"⟩] := by decide
  rw [heq] at h
  exact (List.rel_of_pairwise_cons h (List.mem_singleton.mpr rfl)) rfl

/-- C3 (amended): on a non-empty pool with requested count `R`, any draw the
sampling step (app.py lines 179-180) can make returns exactly `min R N`
questions, each taken from the pool, drawn at pairwise distinct pool
positions — so the returned questions are pairwise distinct whenever the pool
itself contains no duplicate question. -/
theorem sample_count_membership_nodup (pool : List Question) (R : Nat)
    (idxs : List Nat) (hne : pool ≠ []) (hR : 0 < R)
    (hv : ValidSample pool (min R pool.length) idxs) :
    (randomSample pool idxs).length = min R pool.length ∧
    (∀ q ∈ randomSample pool idxs, q ∈ pool) ∧
    (pool.Nodup → (randomSample pool idxs).Nodup) := by
  obtain ⟨hnd, hlen, hmem⟩ := hv
  refine ⟨?_, fun q hq => randomSample_mem pool idxs q hq,
          fun hp => randomSample_nodup pool idxs hp hnd⟩
  rw [randomSample_length pool idxs hmem, hlen]

/-- Two distinct concrete questions, for witnesses. -/
def qEj1 : Question := ⟨"1", "2+2?", [⟨"A", "3"⟩, ⟨"B", "4"⟩], "B"⟩

def qEj2 : Question := ⟨"2", "3+3?", [⟨"A", "6"⟩, ⟨"B", "7"⟩], "A"⟩

theorem sample_count_membership_nodup_witness :
    ([qEj1, qEj2] : List Question) ≠ [] ∧ 0 < 5 ∧
    ValidSample [qEj1, qEj2] (min 5 ([qEj1, qEj2] : List Question).length) [1, 0] ∧
    ((randomSample [qEj1, qEj2] [1, 0]).length = min 5 ([qEj1, qEj2] : List Question).length ∧
     (∀ q ∈ randomSample [qEj1, qEj2] [1, 0], q ∈ [qEj1, qEj2]) ∧
     (([qEj1, qEj2] : List Question).Nodup → (randomSample [qEj1, qEj2] [1, 0]).Nodup)) :=
  ⟨by decide, by decide, ⟨by decide, by decide, by decide⟩,
   sample_count_membership_nodup [qEj1, qEj2] 5 [1, 0] (by decide) (by decide)
     ⟨by decide, by decide, by decide⟩⟩

/-- C4: for any draw the option shuffle (app.py line 185) can make, the
multiset of option texts of the shuffled list equals the multiset of the
question's original option texts — nothing is added, dropped or edited. -/
theorem shuffle_preserves_option_texts (q : Question) (idxs : List Nat)
    (h : ValidSample q.opciones q.opciones.length idxs) :
    (((randomSample q.opciones idxs).map Opcion.texto : List String) : Multiset String) =
      ((q.opciones.map Opcion.texto : List String) : Multiset String) :=
  Multiset.coe_eq_coe.mpr ((randomSample_perm q.opciones idxs h).map Opcion.texto)

theorem shuffle_preserves_option_texts_witness :
    ValidSample qEj1.opciones qEj1.opciones.length [1, 0] ∧
    (((randomSample qEj1.opciones [1, 0]).map Opcion.texto : List String) : Multiset String) =
      ((qEj1.opciones.map Opcion.texto : List String) : Multiset String) :=
  ⟨⟨by decide, by decide, by decide⟩,
   shuffle_preserves_option_texts qEj1 [1, 0] ⟨by decide, by decide, by decide⟩⟩

/-- C10: the shuffle on app.py line 185 permutes whole option dicts (each with
its `codigo` fixed at parse time on lines 55-60), so for any draw the multiset
of (code, text) option objects is preserved and every served option object is
one of the question's original options, its text still paired with its original
position-derived code. -/
theorem shuffle_preserves_option_objects (q : Question) (idxs : List Nat)
    (h : ValidSample q.opciones q.opciones.length idxs) :
    ((randomSample q.opciones idxs : List Opcion) : Multiset Opcion) =
      ((q.opciones : List Opcion) : Multiset Opcion) ∧
    ∀ op ∈ randomSample q.opciones idxs, op ∈ q.opciones :=
  ⟨Multiset.coe_eq_coe.mpr (randomSample_perm q.opciones idxs h),
   fun op hop => randomSample_mem q.opciones idxs op hop⟩

theorem shuffle_preserves_option_objects_witness :
    ValidSample qEj2.opciones qEj2.opciones.length [1, 0] ∧
    (((randomSample qEj2.opciones [1, 0] : List Opcion) : Multiset Opcion) =
      ((qEj2.opciones : List Opcion) : Multiset Opcion) ∧
     ∀ op ∈ randomSample qEj2.opciones [1, 0], op ∈ qEj2.opciones) :=
  ⟨⟨by decide, by decide, by decide⟩,
   shuffle_preserves_option_objects qEj2 [1, 0] ⟨by decide, by decide, by decide⟩⟩

/-- A JSON value appearing in a `get_questions` response entry. -/
inductive RespVal where
  | str : String → RespVal
  | opts : List Opcion → RespVal
deriving DecidableEq, Repr

/-- The dict appended to `resultado` for one selected question (app.py lines
186-190), as an ordered key-value list: exactly the keys `id`, `pregunta`
and `opciones`. -/
def buildServedQuestion (p : Question) (opciones_mezcladas : List Opcion) :
    List (String × RespVal) :=
  [("id", RespVal.str p.id),
   ("pregunta", RespVal.str p.pregunta),
   ("opciones", RespVal.opts opciones_mezcladas)]

/-- The `resultado` list of `get_questions` (app.py lines 183-190): one entry
per selected question, whose options are shuffled by the draw paired with it. -/
def buildResultado (seleccionadas : List Question) (shuffles : List (List Nat)) :
    List (List (String × RespVal)) :=
  (seleccionadas.zip shuffles).map
    (fun p => buildServedQuestion p.1 (randomSample p.1.opciones p.2))

/-- C5: every entry of the `get_questions` response carries exactly the keys
`id`, `pregunta` and `opciones` — in particular `respuesta_correcta` is never
present — for every selection of questions and every shuffle draw. -/
theorem served_question_has_no_correct_answer
    (seleccionadas : List Question) (shuffles : List (List Nat))
    (entry : List (String × RespVal))
    (h : entry ∈ buildResultado seleccionadas shuffles) :
    entry.map Prod.fst = ["id", "pregunta", "opciones"] ∧
    "respuesta_correcta" ∉ entry.map Prod.fst := by
  simp only [buildResultado, List.mem_map] at h
  obtain ⟨p, _, hp⟩ := h
  subst hp
  refine ⟨rfl, ?_⟩
  simp [buildServedQuestion]

theorem served_question_has_no_correct_answer_witness :
    (buildServedQuestion qEj1 (randomSample qEj1.opciones [1, 0]) ∈
       buildResultado [qEj1] [[1, 0]]) ∧
    ((buildServedQuestion qEj1 (randomSample qEj1.opciones [1, 0])).map Prod.fst =
       ["id", "pregunta", "opciones"] ∧
     "respuesta_correcta" ∉
       (buildServedQuestion qEj1 (randomSample qEj1.opciones [1, 0])).map Prod.fst) :=
  ⟨by decide,
   served_question_has_no_correct_answer [qEj1] [[1, 0]]
     (buildServedQuestion qEj1 (randomSample qEj1.opciones [1, 0])) (by decide)⟩

/-- A JSON value as decoded by `request.get_json()` into Python: the possible
types of `data.get('cantidad', 5)`. Python booleans are a distinct type from
integers at the JSON level, but `bool` is a subclass of `int` in Python. The
numeric payloads of floats and the contents of strings, lists and objects are
never inspected by the guard, so they are not carried. -/
inductive PyVal where
  | vint : Int → PyVal
  | vbool : Bool → PyVal
  | vfloat : PyVal
  | vstr : String → PyVal
  | vnull : PyVal
  | vlist : PyVal
  | vdict : PyVal
deriving DecidableEq, Repr

/-- Python `isinstance(v, int)`: true for `int` and — because `bool` is a
subclass of `int` — for `bool` as well. -/
def pyIsInstanceInt : PyVal → Bool
  | PyVal.vint _ => true
  | PyVal.vbool _ => true
  | _ => false

/-- The integer value of an int-like Python value (`True == 1`, `False == 0`);
only ever applied after `pyIsInstanceInt` holds, the other cases are
unreachable under the short-circuiting guard. -/
def pyIntValue : PyVal → Int
  | PyVal.vint n => n
  | PyVal.vbool b => if b then 1 else 0
  | _ => 0

/-- `data.get('cantidad', 5)` (app.py line 150): the default when the key is
absent is the int 5. -/
def getCantidad (v : Option PyVal) : PyVal :=
  v.getD (PyVal.vint 5)

/-- What the `cantidad` guard decides (app.py lines 152-153): `badRequest` is
the 400 response returned before the sheet is fetched and before any sampling;
`proceed n` means execution continues into fetching and sampling with the
integer value `n`. -/
inductive GetQuestionsOutcome where
  | badRequest : GetQuestionsOutcome
  | proceed : Int → GetQuestionsOutcome
deriving DecidableEq, Repr

/-- The guard `if not isinstance(cantidad, int) or cantidad <= 0` (app.py
lines 152-153); the `or` short-circuits, so `cantidad <= 0` is only evaluated
on int-like values. -/
def get_questions_guard (cantidad : PyVal) : GetQuestionsOutcome :=
  if !pyIsInstanceInt cantidad || decide (pyIntValue cantidad ≤ 0) then
    GetQuestionsOutcome.badRequest
  else
    GetQuestionsOutcome.proceed (pyIntValue cantidad)

/-- A `cantidad` value that is a positive integer in the JSON sense: an
integer (not a boolean, float, string, null, list or object) greater than 0.
Stated from the claim's words, for comparison with the code's guard. -/
def isPositiveIntegerValue : PyVal → Prop
  | PyVal.vint n => 0 < n
  | _ => False

/-- C8 counterexample: the JSON boolean `true` is not a positive integer, yet
the guard lets it through (Python's `bool` is a subclass of `int` and
`True == 1`), so a body with `cantidad = true` is not rejected with 400. -/
theorem cantidad_guard_counterexample :
    ¬ isPositiveIntegerValue (PyVal.vbool true) ∧
    get_questions_guard (getCantidad (some (PyVal.vbool true))) =
      GetQuestionsOutcome.proceed 1 ∧
    get_questions_guard (getCantidad (some (PyVal.vbool true))) ≠
      GetQuestionsOutcome.badRequest := by
  refine ⟨fun h => h, by decide, by decide⟩

/-- C8 (amended): the guard returns the 400 response — before any sheet fetch
or sampling — exactly when `cantidad` is neither a positive JSON integer nor
the boolean `true` (which Python's `isinstance(·, int)` treats as the integer
1); zero, negative integers, `false`, floats, strings, null, lists and objects
are all rejected. -/
theorem cantidad_guard_rejects_iff (v : PyVal) :
    get_questions_guard v = GetQuestionsOutcome.badRequest ↔
      ¬ (isPositiveIntegerValue v ∨ v = PyVal.vbool true) := by
  cases v with
  | vint n =>
      by_cases hn : 0 < n
      · have : ¬ (n ≤ 0) := by omega
        simp [get_questions_guard, pyIsInstanceInt, pyIntValue, isPositiveIntegerValue,
          this, hn]
      · have : n ≤ 0 := by omega
        simp [get_questions_guard, pyIsInstanceInt, pyIntValue, isPositiveIntegerValue,
          this, hn]
  | vbool b =>
      cases b <;>
        simp [get_questions_guard, pyIsInstanceInt, pyIntValue, isPositiveIntegerValue]
  | vfloat => simp [get_questions_guard, pyIsInstanceInt, isPositiveIntegerValue]
  | vstr s => simp [get_questions_guard, pyIsInstanceInt, isPositiveIntegerValue]
  | vnull => simp [get_questions_guard, pyIsInstanceInt, isPositiveIntegerValue]
  | vlist => simp [get_questions_guard, pyIsInstanceInt, isPositiveIntegerValue]
  | vdict => simp [get_questions_guard, pyIsInstanceInt, isPositiveIntegerValue]

/-- One element of the request's `respuestas` list (app.py lines 243-244):
`respuesta.get('id')` is `None` when the key is missing, and so is
`respuesta.get('respuesta')` before the `''` default is applied. -/
structure RespuestaUsuario where
  id : Option String
  respuesta : Option String
deriving DecidableEq, Repr

/-- One entry of `resultados`: either the not-found dict of app.py lines
247-251 or the graded dict of lines 259-265; the final field is `puntaje`. -/
inductive Resultado where
  | notFound : Option String → Nat → Resultado
  | evaluated : Option String → Bool → String → String → Nat → Resultado
deriving DecidableEq, Repr

/-- The `puntaje` field of a result entry. -/
def Resultado.puntaje : Resultado → Nat
  | Resultado.notFound _ p => p
  | Resultado.evaluated _ _ _ _ p => p

/-- The four accumulators of the validation loop (app.py lines 237-240). -/
structure ValidateState where
  resultados : List Resultado
  puntaje_total : Nat
  correctas : Nat
  incorrectas : Nat
deriving DecidableEq, Repr

/-- `respuesta.get('respuesta', '').strip().upper()` (app.py line 244). -/
def pyNormalize (s : Option String) : String :=
  pyUpper (pyStrip (s.getD ""))

/-- One iteration of the validation loop (app.py lines 242-271), over an
abstract question lookup `dict` (the `preguntas_dict` of lines 228-232):
a missing id or an unknown id appends a not-found entry with `puntaje` 0 and
bumps `incorrectas`; otherwise the normalized submission is compared with the
stored `respuesta_correcta` and the entry, score and counters updated. -/
def validateStep (dict : String → Option Question) (st : ValidateState)
    (r : RespuestaUsuario) : ValidateState :=
  let respuesta_enviada := pyNormalize r.respuesta
  match r.id.bind dict with
  | none =>
      ⟨st.resultados ++ [Resultado.notFound r.id 0], st.puntaje_total,
       st.correctas, st.incorrectas + 1⟩
  | some q =>
      if respuesta_enviada = q.respuesta_correcta then
        ⟨st.resultados ++
           [Resultado.evaluated r.id true respuesta_enviada q.respuesta_correcta 1],
         st.puntaje_total + 1, st.correctas + 1, st.incorrectas⟩
      else
        ⟨st.resultados ++
           [Resultado.evaluated r.id false respuesta_enviada q.respuesta_correcta 0],
         st.puntaje_total, st.correctas, st.incorrectas + 1⟩

/-- The whole validation loop, starting from empty accumulators. -/
def validate_answers (dict : String → Option Question)
    (respuestas_usuario : List RespuestaUsuario) : ValidateState :=
  respuestas_usuario.foldl (validateStep dict) ⟨[], 0, 0, 0⟩

/-- The JSON body returned on app.py lines 273-279; `total_preguntas` is
`len(respuestas_usuario)`. -/
structure ValidateResponse where
  resultados : List Resultado
  puntaje_total : Nat
  total_preguntas : Nat
  correctas : Nat
  incorrectas : Nat
deriving DecidableEq, Repr

/-- The response of `/api/validate-answers` for a given lookup and submission
list (app.py lines 273-279). -/
def validate_answers_response (dict : String → Option Question)
    (respuestas_usuario : List RespuestaUsuario) : ValidateResponse :=
  let st := validate_answers dict respuestas_usuario
  ⟨st.resultados, st.puntaje_total, respuestas_usuario.length,
   st.correctas, st.incorrectas⟩

/-- C6: one loop iteration grades a known question id by comparing the
trimmed-uppercased submission with the stored answer — equal gives
`correcta = true`, `puntaje = 1`, unequal gives `correcta = false`,
`puntaje = 0` — and records a not-found entry with `puntaje = 0` and an
`incorrectas` bump for an unknown (or missing) question id; in both cases it
returns a state, never an exception. -/
theorem validate_item_grading (dict : String → Option Question)
    (st : ValidateState) (r : RespuestaUsuario) :
    (∀ qid q, r.id = some qid → dict qid = some q →
      validateStep dict st r =
        if pyNormalize r.respuesta = q.respuesta_correcta then
          ⟨st.resultados ++
             [Resultado.evaluated r.id true (pyNormalize r.respuesta)
                q.respuesta_correcta 1],
           st.puntaje_total + 1, st.correctas + 1, st.incorrectas⟩
        else
          ⟨st.resultados ++
             [Resultado.evaluated r.id false (pyNormalize r.respuesta)
                q.respuesta_correcta 0],
           st.puntaje_total, st.correctas, st.incorrectas + 1⟩) ∧
    (r.id.bind dict = none →
      validateStep dict st r =
        ⟨st.resultados ++ [Resultado.notFound r.id 0], st.puntaje_total,
         st.correctas, st.incorrectas + 1⟩) := by
  constructor
  · intro qid q hid hq
    have hbind : r.id.bind dict = some q := by rw [hid]; exact hq
    by_cases hc : pyNormalize r.respuesta = q.respuesta_correcta <;>
      simp [validateStep, hbind, hc]
  · intro hbind
    simp [validateStep, hbind]

/-- A concrete lookup holding only `qEj1` under the id `"1"`. -/
def dictEj : String → Option Question :=
  fun k => if k = "1" then some qEj1 else none

theorem validate_item_grading_witness :
    (⟨some "1", some " b "⟩ : RespuestaUsuario).id = some "1" ∧
    dictEj "1" = some qEj1 ∧
    validateStep dictEj ⟨[], 0, 0, 0⟩ ⟨some "1", some " b "⟩ =
      (if pyNormalize (some " b ") = qEj1.respuesta_correcta then
        ⟨([] : List Resultado) ++
           [Resultado.evaluated (some "1") true (pyNormalize (some " b "))
              qEj1.respuesta_correcta 1], 0 + 1, 0 + 1, 0⟩
      else
        ⟨([] : List Resultado) ++
           [Resultado.evaluated (some "1") false (pyNormalize (some " b "))
              qEj1.respuesta_correcta 0], 0, 0, 0 + 1⟩) ∧
    (⟨some "99", some "A"⟩ : RespuestaUsuario).id.bind dictEj = none ∧
    validateStep dictEj ⟨[], 0, 0, 0⟩ ⟨some "99", some "A"⟩ =
      ⟨([] : List Resultado) ++ [Resultado.notFound (some "99") 0], 0, 0, 0 + 1⟩ :=
  ⟨rfl, by decide,
   (validate_item_grading dictEj ⟨[], 0, 0, 0⟩ ⟨some "1", some " b "⟩).1 "1" qEj1
     rfl (by decide),
   by decide,
   (validate_item_grading dictEj ⟨[], 0, 0, 0⟩ ⟨some "99", some "A"⟩).2 (by decide)⟩

/-- Each loop iteration bumps exactly one of the two counters. -/
lemma validateStep_counters (dict : String → Option Question)
    (st : ValidateState) (r : RespuestaUsuario) :
    (validateStep dict st r).correctas + (validateStep dict st r).incorrectas =
      st.correctas + st.incorrectas + 1 := by
  cases hbind : r.id.bind dict with
  | none => simp [validateStep, hbind]; omega
  | some q =>
      by_cases hc : pyNormalize r.respuesta = q.respuesta_correcta <;>
        simp [validateStep, hbind, hc] <;> omega

/-- Each loop iteration keeps `puntaje_total` equal to the sum of the
`puntaje` fields of `resultados`. -/
lemma validateStep_puntaje (dict : String → Option Question)
    (st : ValidateState) (r : RespuestaUsuario)
    (h : st.puntaje_total = (st.resultados.map Resultado.puntaje).sum) :
    (validateStep dict st r).puntaje_total =
      ((validateStep dict st r).resultados.map Resultado.puntaje).sum := by
  cases hbind : r.id.bind dict with
  | none => simp [validateStep, hbind, Resultado.puntaje, h]
  | some q =>
      by_cases hc : pyNormalize r.respuesta = q.respuesta_correcta <;>
        simp [validateStep, hbind, hc, Resultado.puntaje, h]

lemma validate_foldl_counters (dict : String → Option Question)
    (rs : List RespuestaUsuario) :
    ∀ st : ValidateState,
      (rs.foldl (validateStep dict) st).correctas +
        (rs.foldl (validateStep dict) st).incorrectas =
        st.correctas + st.incorrectas + rs.length := by
  induction rs with
  | nil => intro st; simp
  | cons r t ih =>
      intro st
      rw [List.foldl_cons, ih (validateStep dict st r),
        validateStep_counters dict st r, List.length_cons]
      omega

lemma validate_foldl_puntaje (dict : String → Option Question)
    (rs : List RespuestaUsuario) :
    ∀ st : ValidateState,
      st.puntaje_total = (st.resultados.map Resultado.puntaje).sum →
      (rs.foldl (validateStep dict) st).puntaje_total =
        (((rs.foldl (validateStep dict) st).resultados.map Resultado.puntaje)).sum := by
  induction rs with
  | nil => intro st h; simpa using h
  | cons r t ih =>
      intro st h
      rw [List.foldl_cons]
      exact ih (validateStep dict st r) (validateStep_puntaje dict st r h)

/-- C7: for every (in particular every non-empty) submission list, the
response satisfies `puntaje_total` = sum of the per-item `puntaje` fields and
`correctas + incorrectas = total_preguntas = ` number of submitted answers. -/
theorem validate_aggregate (dict : String → Option Question)
    (respuestas_usuario : List RespuestaUsuario)
    (hne : respuestas_usuario ≠ []) :
    (validate_answers_response dict respuestas_usuario).puntaje_total =
      (((validate_answers_response dict respuestas_usuario).resultados.map
        Resultado.puntaje)).sum ∧
    (validate_answers_response dict respuestas_usuario).correctas +
      (validate_answers_response dict respuestas_usuario).incorrectas =
      (validate_answers_response dict respuestas_usuario).total_preguntas ∧
    (validate_answers_response dict respuestas_usuario).total_preguntas =
      respuestas_usuario.length := by
  refine ⟨?_, ?_, rfl⟩
  · exact validate_foldl_puntaje dict respuestas_usuario ⟨[], 0, 0, 0⟩ rfl
  · have h := validate_foldl_counters dict respuestas_usuario ⟨[], 0, 0, 0⟩
    simpa [validate_answers_response, validate_answers] using h

theorem validate_aggregate_witness :
    ([⟨some "1", some " b "⟩, ⟨some "1", some "A"⟩, ⟨some "99", some "A"⟩] :
        List RespuestaUsuario) ≠ [] ∧
    ((validate_answers_response dictEj
        [⟨some "1", some " b "⟩, ⟨some "1", some "A"⟩, ⟨some "99", some "A"⟩]).puntaje_total =
      (((validate_answers_response dictEj
        [⟨some "1", some " b "⟩, ⟨some "1", some "A"⟩, ⟨some "99", some "A"⟩]).resultados.map
          Resultado.puntaje)).sum ∧
     (validate_answers_response dictEj
        [⟨some "1", some " b "⟩, ⟨some "1", some "A"⟩, ⟨some "99", some "A"⟩]).correctas +
       (validate_answers_response dictEj
        [⟨some "1", some " b "⟩, ⟨some "1", some "A"⟩, ⟨some "99", some "A"⟩]).incorrectas =
       (validate_answers_response dictEj
        [⟨some "1", some " b "⟩, ⟨some "1", some "A"⟩, ⟨some "99", some "A"⟩]).total_preguntas ∧
     (validate_answers_response dictEj
        [⟨some "1", some " b "⟩, ⟨some "1", some "A"⟩, ⟨some "99", some "A"⟩]).total_preguntas =
       ([⟨some "1", some " b "⟩, ⟨some "1", some "A"⟩, ⟨some "99", some "A"⟩] :
         List RespuestaUsuario).length) :=
  ⟨by decide,
   validate_aggregate dictEj
     [⟨some "1", some " b "⟩, ⟨some "1", some "A"⟩, ⟨some "99", some "A"⟩]
     (by decide)⟩

/-- Whatever branch succeeds, a parsed question's `respuesta_correcta` is
field 6 stripped and upper-cased. -/
lemma parse_respuesta_correcta_eq (row : List String) (idx : Nat) (q : Question)
    (hp : parse_question_row row idx = some q) :
    q.respuesta_correcta = pyUpper (pyStrip (rowGet row 6)) := by
  by_cases hlen : row.length < 7
  · simp [parse_question_row, hlen] at hp
  · have h1 : 1 < row.length := by omega
    have h2 : 2 < row.length := by omega
    have h3 : 3 < row.length := by omega
    have h4 : 4 < row.length := by omega
    have h5 : 5 < row.length := by omega
    have h6 : 6 < row.length := by omega
    by_cases hq1 : rowGet row 1 = ""
    · simp [parse_question_row, hlen, h1, hq1] at hp
    · by_cases hopt : nonEmptyOptFields row < 2
      · have hfl : (([(⟨"A", rowGet row 2⟩ : Opcion), ⟨"B", rowGet row 3⟩,
            ⟨"C", rowGet row 4⟩, ⟨"D", rowGet row 5⟩]).filter
            (fun op => !decide (op.texto = ""))).length < 2 := by
          rw [opciones_filter_length_bool]; omega
        simp [parse_question_row, hlen, h1, h2, h3, h4, h5, h6, hq1, hfl] at hp
      · rw [parse_question_row_eq_of_valid row idx (by omega) hq1 (by omega)] at hp
        cases hp
        rfl

/-- Stripping a string made of whitespace only (in particular the empty
string) yields the empty string. -/
lemma pyStrip_eq_empty_of_all_ws (s : String)
    (h : s.toList.all isPyWs = true) : pyStrip s = "" := by
  have h' : ∀ c ∈ s.data, isPyWs c := by simpa [List.all_eq_true] using h
  have h1 : List.dropWhile isPyWs s.data = [] := List.dropWhile_eq_nil_iff.mpr h'
  simp [pyStrip, String.toList, h1]

/-- A missing or whitespace-only submission normalizes to the empty string. -/
lemma pyNormalize_eq_empty (o : Option String)
    (h : o = none ∨ ∃ s, o = some s ∧ s.toList.all isPyWs = true) :
    pyNormalize o = "" := by
  rcases h with rfl | ⟨s, rfl, hs⟩
  · rfl
  · simp [pyNormalize, pyStrip_eq_empty_of_all_ws s hs]
    rfl

/-- C9: a row whose correct-answer field (field 6) is empty or
whitespace-only still parses (given the other conditions hold) and stores
`respuesta_correcta = ""`; against such a question, a submission whose
`respuesta` is missing, empty or whitespace-only normalizes to `""` and is
graded correct with `puntaje = 1`. -/
theorem empty_correct_answer_grades_correct (row : List String) (idx : Nat)
    (q : Question) (dict : String → Option Question) (st : ValidateState)
    (r : RespuestaUsuario) (qid : String)
    (hws : (rowGet row 6).toList.all isPyWs = true)
    (hp : parse_question_row row idx = some q) :
    q.respuesta_correcta = "" ∧
    ((r.respuesta = none ∨ ∃ s, r.respuesta = some s ∧ s.toList.all isPyWs = true) →
      r.id = some qid → dict qid = some q →
      validateStep dict st r =
        ⟨st.resultados ++ [Resultado.evaluated r.id true "" "" 1],
         st.puntaje_total + 1, st.correctas + 1, st.incorrectas⟩) := by
  have hqrc : q.respuesta_correcta = "" := by
    rw [parse_respuesta_correcta_eq row idx q hp, pyStrip_eq_empty_of_all_ws _ hws]
    rfl
  refine ⟨hqrc, fun hresp hid hdict => ?_⟩
  have hbind : r.id.bind dict = some q := by rw [hid]; exact hdict
  have hnorm : pyNormalize r.respuesta = "" := pyNormalize_eq_empty r.respuesta hresp
  simp [validateStep, hbind, hnorm, hqrc]

/-- A row whose correct-answer field is whitespace-only. -/
def rowWs : List String := ["1", "2+2?", "3", "4", "", "", "  "]

/-- The question `rowWs` parses to: its `respuesta_correcta` is empty. -/
def qWs : Question := ⟨"1", "2+2?", [⟨"A", "3"⟩, ⟨"B", "4"⟩], ""⟩

/-- A lookup holding only `qWs` under the id `"1"`. -/
def dictWs : String → Option Question :=
  fun k => if k = "1" then some qWs else none

theorem empty_correct_answer_grades_correct_witness :
    (rowGet rowWs 6).toList.all isPyWs = true ∧
    parse_question_row rowWs 2 = some qWs ∧
    qWs.respuesta_correcta = "" ∧
    validateStep dictWs ⟨[], 0, 0, 0⟩ ⟨some "1", none⟩ =
      ⟨([] : List Resultado) ++ [Resultado.evaluated (some "1") true "" "" 1],
       0 + 1, 0 + 1, 0⟩ :=
  ⟨by decide, by decide,
   (empty_correct_answer_grades_correct rowWs 2 qWs dictWs ⟨[], 0, 0, 0⟩
     ⟨some "1", none⟩ "1" (by decide) (by decide)).1,
   (empty_correct_answer_grades_correct rowWs 2 qWs dictWs ⟨[], 0, 0, 0⟩
     ⟨some "1", none⟩ "1" (by decide) (by decide)).2 (Or.inl rfl) rfl (by decide)⟩
